import Mathlib

/-!
Shallow embedding of `coyote2.py`, a BLE protocol driver for the
Coyote 2.0 two-channel stimulation device, together with proofs about its
session state machine and its bit-level wire codec.

Modelling conventions:
* Python `bytes` values are `List Nat` (each entry a byte value `< 256`).
* Python exceptions are the explicit error type `PyErr`; a fallible
  operation returns `Except PyErr α`.
* The BLE transport (bleak's `BleakClient` / `BleakScanner`) is an opaque
  external collaborator, modelled by an environment `Env` giving the scan
  result, the service list the peer exposes after connect, and the data
  each GATT characteristic returns on read.
* Each session operation also returns the list of transport operations
  (`TOp`) it performed, so "touches the transport" is provable.
* Python `float` arithmetic in the intensity conversions is modelled over
  `ℚ`; the concrete values the development evaluates at (`1.0`, `0.5`,
  `3.5`, `7/7`) are exactly representable in binary floating point, so the
  rational model agrees with CPython there.
-/

namespace Coyote2

/-- Python exception kinds raised by the driver (built-in ones included). -/
inductive PyErr where
  | AssertionError
  | IndexError
  | OverflowError
  | AlreadyConnectedError
  | NotConnectedError
  | DeviceIsNotCoyote20Error
  | DeviceNotFoundError
deriving DecidableEq, Repr

/-- A transport-level (bleak) operation performed by a driver call. -/
inductive TOp where
  | scan (name : String)
  | connect
  | disconnect
  | readChar (uuid : String)
  | writeChar (uuid : String) (data : List Nat)
deriving DecidableEq, Repr

/-- The external BLE world: what discovery finds, which services the peer
exposes once connected, and what each characteristic holds on read. -/
structure Env where
  scanResult : Option String
  services : List String
  charData : String → List Nat

/-- The mutable state of a `Coyote2` driver object: `self.address` and the
live connection status reported by the transport handle. -/
structure Coyote2State where
  address : Option String
  connected : Bool
deriving DecidableEq, Repr

/-! ### Protocol constants (module-level constants of `coyote2.py`) -/

def BLE_DEVICE_NAME : String := "D-LAB ESTIM01"

def SERVICE_A_UUID : String := "955A180A-0FE2-F5AA-A094-84B8D4F3E8AD"

def BATTERY_LEVEL_UUID : String := "955A1500-0FE2-F5AA-A094-84B8D4F3E8AD"

def PWM_AB2_UUID : String := "955A1504-0FE2-F5AA-A094-84B8D4F3E8AD"

def PWM_A34_UUID : String := "955A1505-0FE2-F5AA-A094-84B8D4F3E8AD"

def PWM_B34_UUID : String := "955A1506-0FE2-F5AA-A094-84B8D4F3E8AD"

/-! ### Byte-level primitives (Python `int.from_bytes` / `int.to_bytes`) -/

/-- `int.from_bytes(data, "little", signed=False)`: the first byte is the
least significant.  Total, and yields `0` on the empty byte string. -/
def fromBytesLE (data : List Nat) : Nat :=
  data.foldr (fun b acc => b + 256 * acc) 0

/-- Little-endian byte expansion of `n` to exactly `len` bytes
(truncating above `256 ^ len`). -/
def toBytesLE : Nat → Nat → List Nat
  | 0, _ => []
  | len + 1, n => n % 256 :: toBytesLE len (n / 256)

/-- `n.to_bytes(len, "little", signed=False)`: fails with `OverflowError`
when `n` does not fit in `len` bytes. -/
def to_bytes (n : Nat) (len : Nat) : Except PyErr (List Nat) :=
  if n < 256 ^ len then .ok (toBytesLE len n) else .error .OverflowError

/-! ### Wire codec: intensity pair (`PWM_AB2`, lines 97-119 of the source) -/

/-- Decode half of `_get_real_strength` (after the GATT read):
`a = data_int >> 13`, `b = (data_int >> 2) & 0b11111111111`.
Note the source performs no length check on `data`. -/
def decode_real_strength (data : List Nat) : Nat × Nat :=
  let data_int := fromBytesLE data
  let real_strength_a := data_int >>> 13
  let real_strength_b_mask := 0b0000000000011111111111
  let real_strength_b := (data_int >>> 2) &&& real_strength_b_mask
  (real_strength_a, real_strength_b)

/-- The packing arithmetic of `_write_real_strength`:
`data_int = ((a << 11) + b) << 2`. -/
def strength_pack (a b : Nat) : Nat := ((a <<< 11) + b) <<< 2

/-- Encode half of `_write_real_strength`: the range assertion
(`assert 0 <= a <= 2047 and 0 <= b <= 2047`), the bit packing and the
3-byte little-endian serialisation. -/
def _write_real_strength_payload (a b : Int) : Except PyErr (List Nat) :=
  if 0 ≤ a ∧ a ≤ 2047 ∧ 0 ≤ b ∧ b ≤ 2047 then
    to_bytes (strength_pack a.toNat b.toNat) 3
  else .error .AssertionError

/-! ### Wire codec: wave triple (`PWM_A34` / `PWM_B34`, lines 124-147) -/

/-- Decode half of `__read_wave` (after the GATT read):
`x = data_int >> 19`, `y = (data_int >> 9) & 0b1111111111`,
`z = (data_int >> 2) & 0b11111`.  No length check in the source. -/
def decode_wave (data : List Nat) : Nat × Nat × Nat :=
  let data_int := fromBytesLE data
  let x := data_int >>> 19
  let y_mask := 0b000001111111111
  let y := (data_int >>> 9) &&& y_mask
  let z_mask := 0b00000000000000011111
  let z := (data_int >>> 2) &&& z_mask
  (x, y, z)

/-- The packing arithmetic of `__write_wave`:
`data_int = ((((x << 10) + y) << 5) + z) << 2`. -/
def wave_pack (x y z : Nat) : Nat := ((((x <<< 10) + y) <<< 5) + z) <<< 2

/-- Encode half of `__write_wave`: the range assertion
(`assert 0 <= x <= 31 and 0 <= y <= 1023 and 0 <= z <= 31`), the bit
packing and the 3-byte little-endian serialisation. -/
def __write_wave_payload (x y z : Int) : Except PyErr (List Nat) :=
  if 0 ≤ x ∧ x ≤ 31 ∧ 0 ≤ y ∧ y ≤ 1023 ∧ 0 ≤ z ∧ z ≤ 31 then
    to_bytes (wave_pack x.toNat y.toNat z.toNat) 3
  else .error .AssertionError

/-! ### Float/raw intensity conversion (lines 106-108 and 121-122) -/

/-- Python `int()` applied to an exact numeric value: truncation toward
zero (floor for non-negative arguments, ceiling for negative ones). -/
def pyInt (q : ℚ) : Int := if 0 ≤ q then ⌊q⌋ else -⌊-q⌋

/-- The conversion inline in `get_strength`: `real_strength / 7`. -/
def intensity_to_float (raw : Nat) : ℚ := (raw : ℚ) / 7

/-- The conversion inline in `write_strength`: `int(strength * 7)`. -/
def float_to_raw (v : ℚ) : Int := pyInt (v * 7)

/-! ### Session manager (lines 43-89) -/

/-- `find_device`: scan by advertised name; on success store the address
and return `True`, otherwise return `False`. -/
def find_device (env : Env) (s : Coyote2State) :
    Except PyErr Bool × Coyote2State × List TOp :=
  match env.scanResult with
  | none => (.ok false, s, [.scan BLE_DEVICE_NAME])
  | some addr => (.ok true, { s with address := some addr }, [.scan BLE_DEVICE_NAME])

/-- `connect`: `assert self.address is not None`; raise
`AlreadyConnectedError` when the link is already live; otherwise perform
the transport connect and scan the exposed services for
`SERVICE_A_UUID.lower()`; when absent, force a disconnect and raise
`DeviceIsNotCoyote20Error`. -/
def connect (env : Env) (s : Coyote2State) :
    Except PyErr Unit × Coyote2State × List TOp :=
  match s.address with
  | none => (.error .AssertionError, s, [])
  | some _ =>
    if s.connected then (.error .AlreadyConnectedError, s, [])
    else
      let s1 : Coyote2State := { s with connected := true }
      if SERVICE_A_UUID.toLower ∈ env.services then (.ok (), s1, [.connect])
      else (.error .DeviceIsNotCoyote20Error, { s1 with connected := false },
            [.connect, .disconnect])

/-- `disconnect`: unconditionally request the transport disconnect. -/
def disconnect (s : Coyote2State) :
    Except PyErr Unit × Coyote2State × List TOp :=
  (.ok (), { s with connected := false }, [.disconnect])

/-- `__aenter__`.  The source contains a defect here: it binds
`found_device = self.find_device()` WITHOUT `await`, so no scan is
performed and `found_device` is a coroutine object, which is truthy;
hence `if not found_device` is always false and the
`DeviceNotFoundError` branch is unreachable.  Control then falls through
to `connect()` with the address still unset. -/
def __aenter__ (env : Env) (s : Coyote2State) :
    Except PyErr Unit × Coyote2State × List TOp :=
  if s.address = none then
    let found_device_is_truthy := true
    if found_device_is_truthy = false then (.error .DeviceNotFoundError, s, [])
    else connect env s
  else connect env s

/-- `__aexit__`: always disconnect.  It returns `None` (falsy), so an
exception from the body of the `async with` block is never suppressed;
that propagation rule lives in `withSession` below. -/
def __aexit__ (s : Coyote2State) :
    Except PyErr Unit × Coyote2State × List TOp :=
  disconnect s

/-- Python semantics of `async with driver: body`: run `__aenter__`; when
it fails its exception propagates and `__aexit__` is not invoked; when it
succeeds, run the body, then always run `__aexit__`; an exception from
`__aexit__` propagates, otherwise the body's outcome does (never
suppressed, since `__aexit__` returns a falsy value). -/
def withSession (env : Env) (s : Coyote2State)
    (body : Coyote2State → Except PyErr Unit × Coyote2State × List TOp) :
    Except PyErr Unit × Coyote2State × List TOp :=
  match __aenter__ env s with
  | (.error e, s1, t1) => (.error e, s1, t1)
  | (.ok _, s1, t1) =>
    let r := body s1
    let x := __aexit__ r.2.1
    let res : Except PyErr Unit :=
      match x.1 with
      | .error ex => .error ex
      | .ok _ => r.1
    (res, x.2.1, t1 ++ r.2.2 ++ x.2.2)

/-! ### Read/write protocol operations (lines 91-159)

Each returns its result together with the transport operations performed;
the driver state is not mutated by these calls. -/

/-- `get_battery_level`: connection check, GATT read, `data[0]` (which
raises `IndexError` on an empty payload). -/
def get_battery_level (env : Env) (s : Coyote2State) :
    Except PyErr Nat × List TOp :=
  if s.connected = false then (.error .NotConnectedError, [])
  else
    match env.charData BATTERY_LEVEL_UUID with
    | [] => (.error .IndexError, [.readChar BATTERY_LEVEL_UUID])
    | b :: _ => (.ok b, [.readChar BATTERY_LEVEL_UUID])

/-- `_get_real_strength`: connection check, GATT read of `PWM_AB2`, then
the shift/mask decode.  The decode is total: no payload length check. -/
def _get_real_strength (env : Env) (s : Coyote2State) :
    Except PyErr (Nat × Nat) × List TOp :=
  if s.connected = false then (.error .NotConnectedError, [])
  else (.ok (decode_real_strength (env.charData PWM_AB2_UUID)),
        [.readChar PWM_AB2_UUID])

/-- `get_strength`: `_get_real_strength` then division by 7. -/
def get_strength (env : Env) (s : Coyote2State) :
    Except PyErr (ℚ × ℚ) × List TOp :=
  match _get_real_strength env s with
  | (.error e, t) => (.error e, t)
  | (.ok (a, b), t) => (.ok (intensity_to_float a, intensity_to_float b), t)

/-- `_write_real_strength`: the range assertion runs FIRST, then the
connection check, then packing and the GATT write to `PWM_AB2`. -/
def _write_real_strength (_env : Env) (s : Coyote2State) (a b : Int) :
    Except PyErr Unit × List TOp :=
  if 0 ≤ a ∧ a ≤ 2047 ∧ 0 ≤ b ∧ b ≤ 2047 then
    if s.connected = false then (.error .NotConnectedError, [])
    else
      match to_bytes (strength_pack a.toNat b.toNat) 3 with
      | .error e => (.error e, [])
      | .ok data => (.ok (), [.writeChar PWM_AB2_UUID data])
  else (.error .AssertionError, [])

/-- `write_strength`: float-to-raw conversion then `_write_real_strength`. -/
def write_strength (env : Env) (s : Coyote2State) (va vb : ℚ) :
    Except PyErr Unit × List TOp :=
  _write_real_strength env s (float_to_raw va) (float_to_raw vb)

/-- `__read_wave`: connection check, GATT read of the given
characteristic, then the shift/mask decode (total, no length check). -/
def __read_wave (env : Env) (s : Coyote2State) (uuid : String) :
    Except PyErr (Nat × Nat × Nat) × List TOp :=
  if s.connected = false then (.error .NotConnectedError, [])
  else (.ok (decode_wave (env.charData uuid)), [.readChar uuid])

/-- `__write_wave`: the range assertion runs FIRST, then the connection
check, then packing and the GATT write to the given characteristic. -/
def __write_wave (_env : Env) (s : Coyote2State) (uuid : String) (x y z : Int) :
    Except PyErr Unit × List TOp :=
  if 0 ≤ x ∧ x ≤ 31 ∧ 0 ≤ y ∧ y ≤ 1023 ∧ 0 ≤ z ∧ z ≤ 31 then
    if s.connected = false then (.error .NotConnectedError, [])
    else
      match to_bytes (wave_pack x.toNat y.toNat z.toNat) 3 with
      | .error e => (.error e, [])
      | .ok data => (.ok (), [.writeChar uuid data])
  else (.error .AssertionError, [])

/-- `read_wave_a`: reads the `PWM_B34` (`...1506`) characteristic. -/
def read_wave_a (env : Env) (s : Coyote2State) :
    Except PyErr (Nat × Nat × Nat) × List TOp :=
  __read_wave env s PWM_B34_UUID

/-- `write_wave_a`: writes the `PWM_B34` (`...1506`) characteristic. -/
def write_wave_a (env : Env) (s : Coyote2State) (x y z : Int) :
    Except PyErr Unit × List TOp :=
  __write_wave env s PWM_B34_UUID x y z

/-- `read_wave_b`: reads the `PWM_A34` (`...1505`) characteristic. -/
def read_wave_b (env : Env) (s : Coyote2State) :
    Except PyErr (Nat × Nat × Nat) × List TOp :=
  __read_wave env s PWM_A34_UUID

/-- `write_wave_b`: writes the `PWM_A34` (`...1505`) characteristic. -/
def write_wave_b (env : Env) (s : Coyote2State) (x y z : Int) :
    Except PyErr Unit × List TOp :=
  __write_wave env s PWM_A34_UUID x y z

/-! ### Concrete environments and states used in closed evaluations -/

/-- A world with no matching device advertising and nothing readable. -/
def envNoDevice : Env :=
  { scanResult := none, services := [], charData := fun _ => [] }

/-- A world where every characteristic reads back four zero bytes. -/
def envFourZeroBytes : Env :=
  { scanResult := none, services := [], charData := fun _ => [0, 0, 0, 0] }

/-- Driver state with no address known and no live link. -/
def sNoAddr : Coyote2State := { address := none, connected := false }

/-- Driver state with an address known and a live link. -/
def sLive : Coyote2State := { address := some "AA:BB", connected := true }

/-- Driver state with an address known and no live link. -/
def sDown : Coyote2State := { address := some "AA:BB", connected := false }

/-- A world exposing the primary service (so `connect` succeeds). -/
def envWithService : Env :=
  { scanResult := none, services := [SERVICE_A_UUID.toLower], charData := fun _ => [] }

/-- A session body that raises immediately without touching anything. -/
def bodyFail (s : Coyote2State) : Except PyErr Unit × Coyote2State × List TOp :=
  (.error .IndexError, s, [])

/-! ### Helper lemmas -/

theorem fromBytesLE_nil : fromBytesLE [] = 0 := rfl

theorem fromBytesLE_cons (b : Nat) (l : List Nat) :
    fromBytesLE (b :: l) = b + 256 * fromBytesLE l := rfl

theorem fromBytesLE_toBytesLE (len n : Nat) :
    fromBytesLE (toBytesLE len n) = n % 256 ^ len := by
  induction len generalizing n with
  | zero => simp [toBytesLE, fromBytesLE, Nat.mod_one]
  | succ k ih =>
    rw [toBytesLE, fromBytesLE_cons, ih, pow_succ']
    exact (Nat.mod_mul).symm

theorem and_mask_2047 (v : Nat) : v &&& 2047 = v % 2048 := by
  have h := Nat.and_pow_two_sub_one_eq_mod v 11
  norm_num at h
  exact h

theorem and_mask_1023 (v : Nat) : v &&& 1023 = v % 1024 := by
  have h := Nat.and_pow_two_sub_one_eq_mod v 10
  norm_num at h
  exact h

theorem and_mask_31 (v : Nat) : v &&& 31 = v % 32 := by
  have h := Nat.and_pow_two_sub_one_eq_mod v 5
  norm_num at h
  exact h

/-- The intensity-pair codec round-trips: this half of the encode/decode
story is consistent in the source (`_write_real_strength` packs
`a` at bit 13 and `b` at bit 2, exactly where `_get_real_strength`
extracts them). -/
theorem strength_roundtrip (a b : Int)
    (ha : 0 ≤ a) (ha2 : a ≤ 2047) (hb : 0 ≤ b) (hb2 : b ≤ 2047) :
    ∃ data, _write_real_strength_payload a b = .ok data ∧
      decode_real_strength data = (a.toNat, b.toNat) := by
  have haN : a.toNat ≤ 2047 := Int.toNat_le.mpr ha2
  have hbN : b.toNat ≤ 2047 := Int.toNat_le.mpr hb2
  have hpack : strength_pack a.toNat b.toNat = (a.toNat * 2048 + b.toNat) * 4 := by
    simp [strength_pack, Nat.shiftLeft_eq]
  have hlt : strength_pack a.toNat b.toNat < 256 ^ 3 := by
    rw [hpack]; norm_num; omega
  refine ⟨toBytesLE 3 (strength_pack a.toNat b.toNat), ?_, ?_⟩
  · rw [_write_real_strength_payload, if_pos ⟨ha, ha2, hb, hb2⟩, to_bytes, if_pos hlt]
  · rw [decode_real_strength]
    simp only [fromBytesLE_toBytesLE, Nat.shiftRight_eq_div_pow, and_mask_2047]
    rw [Nat.mod_eq_of_lt hlt, hpack]
    norm_num
    constructor
    · omega
    · omega

theorem strength_roundtrip_witness :
    ∃ data, _write_real_strength_payload 5 2047 = .ok data ∧
      decode_real_strength data = ((5 : Int).toNat, (2047 : Int).toNat) :=
  strength_roundtrip 5 2047 (by decide) (by decide) (by decide) (by decide)

/-! ### Claim theorems -/

/-- C1: the claimed wave round-trip fails on the code.  `__write_wave`
packs `x` at bit 17 and `y` at bit 7, while `__read_wave` extracts `x`
from bit 19 and `y` from bit 9.  At `(x, y, z) = (4, 0, 0)` the encoder
produces the payload `[0x00, 0x00, 0x08]`, which the decoder reads back
as `(1, 0, 0)`, not `(4, 0, 0)`.  (The intensity-pair half of the claim
does hold: see `strength_roundtrip`.) -/
theorem c1_wave_encode_decode_mismatch :
    __write_wave_payload 4 0 0 = .ok [0, 0, 8] ∧
    decode_wave [0, 0, 8] = (1, 0, 0) ∧
    decode_wave [0, 0, 8] ≠ (4, 0, 0) :=
  ⟨rfl, rfl, by decide⟩

/-- C2: the claimed enter-scope discovery never happens.  `__aenter__`
binds `self.find_device()` without `await`, so the scan is not performed,
the truthy coroutine object makes the `DeviceNotFoundError` branch
unreachable, and `connect()` then fails its `assert self.address is not
None`.  With no address and no device advertising, entering the scope
performs no transport operation at all and raises the assertion failure,
whereas an awaited `find_device` would have returned `False` after a
scan. -/
theorem c2_enter_without_await :
    __aenter__ envNoDevice sNoAddr = (.error .AssertionError, sNoAddr, []) ∧
    find_device envNoDevice sNoAddr = (.ok false, sNoAddr, [.scan BLE_DEVICE_NAME]) :=
  ⟨rfl, rfl⟩

/-- C3 counterexample: the intensity-pair decode does NOT fail on a
payload that is not exactly 3 bytes: with a live link and a 4-byte
characteristic value `[0, 0, 0, 0]`, `_get_real_strength` succeeds and
returns `(0, 0)`. -/
theorem c3_counterexample :
    (_get_real_strength envFourZeroBytes sLive).1 = .ok (0, 0) := rfl

/-- C3 (amended): the battery decode fails (with `data[0]`'s
`IndexError`, the spec's `MalformedPayload`) when the payload is empty,
but the intensity-pair decode performs no length validation at all: for
any connected state it succeeds on whatever payload the characteristic
returns, of any length. -/
theorem c3_decode_length_behavior (env1 env2 : Env) (s1 s2 : Coyote2State)
    (h1 : s1.connected = true) (h2 : s2.connected = true)
    (hempty : env1.charData BATTERY_LEVEL_UUID = []) :
    get_battery_level env1 s1 = (.error .IndexError, [.readChar BATTERY_LEVEL_UUID]) ∧
    (_get_real_strength env2 s2).1 =
      .ok (decode_real_strength (env2.charData PWM_AB2_UUID)) := by
  constructor
  · rw [get_battery_level, h1]
    simp [hempty]
  · rw [_get_real_strength, h2]
    simp

theorem c3_decode_length_behavior_witness :
    get_battery_level envNoDevice sLive = (.error .IndexError, [.readChar BATTERY_LEVEL_UUID]) ∧
    (_get_real_strength envFourZeroBytes sLive).1 =
      .ok (decode_real_strength (envFourZeroBytes.charData PWM_AB2_UUID)) :=
  c3_decode_length_behavior envNoDevice envFourZeroBytes sLive sLive rfl rfl rfl

/-- C4: both encoders reject every out-of-range field with the range
assertion (`assert ... , "Not a vaild strength"` / `"Not a vaild wave"`,
the failure the spec names `InvalidParameter`): whenever
`(a, b)` violates `0 ≤ a, b ≤ 2047`, or `(x, y, z)` violates
`0 ≤ x, z ≤ 31`, `0 ≤ y ≤ 1023`, the corresponding payload construction
fails before producing any bytes. -/
theorem c4_encode_rejects_out_of_range (a b x y z : Int)
    (hab : ¬(0 ≤ a ∧ a ≤ 2047 ∧ 0 ≤ b ∧ b ≤ 2047))
    (hxyz : ¬(0 ≤ x ∧ x ≤ 31 ∧ 0 ≤ y ∧ y ≤ 1023 ∧ 0 ≤ z ∧ z ≤ 31)) :
    _write_real_strength_payload a b = .error .AssertionError ∧
    __write_wave_payload x y z = .error .AssertionError := by
  rw [_write_real_strength_payload, if_neg hab, __write_wave_payload, if_neg hxyz]
  exact ⟨rfl, rfl⟩

theorem c4_encode_rejects_out_of_range_witness :
    _write_real_strength_payload 2048 (-1) = .error .AssertionError ∧
    __write_wave_payload 32 1024 (-1) = .error .AssertionError :=
  c4_encode_rejects_out_of_range 2048 (-1) 32 1024 (-1) (by decide) (by decide)

/-- C5 counterexample: a write invoked while disconnected does NOT always
raise `NotConnectedError` — the range assertion runs first, so
`_write_real_strength(2048, 0)` on a dead link raises the assertion
failure (the spec's `InvalidParameter`), not `NotConnectedError`. -/
theorem c5_counterexample :
    _write_real_strength envNoDevice sDown 2048 0 = (.error .AssertionError, []) ∧
    (Except.error .AssertionError : Except PyErr Unit) ≠ .error .NotConnectedError :=
  ⟨rfl, by simp⟩

/-- C5 (amended): every read/write operation invoked while the link is
down raises `NotConnectedError` and performs no transport operation,
provided the arguments of a write are in range; a write with
out-of-range arguments raises the parameter assertion instead — but in
every case the transport is untouched. -/
theorem c5_not_connected_guard (env : Env) (s : Coyote2State) (u : String)
    (a b x y z a2 b2 x2 y2 z2 : Int)
    (hs : s.connected = false)
    (ha : 0 ≤ a) (ha2 : a ≤ 2047) (hb : 0 ≤ b) (hb2 : b ≤ 2047)
    (hx : 0 ≤ x) (hx2 : x ≤ 31) (hy : 0 ≤ y) (hy2 : y ≤ 1023)
    (hz : 0 ≤ z) (hz2 : z ≤ 31) :
    get_battery_level env s = (.error .NotConnectedError, []) ∧
    _get_real_strength env s = (.error .NotConnectedError, []) ∧
    get_strength env s = (.error .NotConnectedError, []) ∧
    _write_real_strength env s a b = (.error .NotConnectedError, []) ∧
    __read_wave env s u = (.error .NotConnectedError, []) ∧
    __write_wave env s u x y z = (.error .NotConnectedError, []) ∧
    read_wave_a env s = (.error .NotConnectedError, []) ∧
    write_wave_a env s x y z = (.error .NotConnectedError, []) ∧
    read_wave_b env s = (.error .NotConnectedError, []) ∧
    write_wave_b env s x y z = (.error .NotConnectedError, []) ∧
    (_write_real_strength env s a2 b2).2 = [] ∧
    (__write_wave env s u x2 y2 z2).2 = [] := by
  have hw : ∀ u3 : String, ∀ a3 b3 x3 y3 z3 : Int,
      (_write_real_strength env s a3 b3).2 = [] ∧
      (__write_wave env s u3 x3 y3 z3).2 = [] := by
    intro u3 a3 b3 x3 y3 z3
    constructor
    · by_cases hc : 0 ≤ a3 ∧ a3 ≤ 2047 ∧ 0 ≤ b3 ∧ b3 ≤ 2047
      · rw [_write_real_strength, if_pos hc, hs]
        rfl
      · rw [_write_real_strength, if_neg hc]
    · by_cases hc : 0 ≤ x3 ∧ x3 ≤ 31 ∧ 0 ≤ y3 ∧ y3 ≤ 1023 ∧ 0 ≤ z3 ∧ z3 ≤ 31
      · rw [__write_wave, if_pos hc, hs]
        rfl
      · rw [__write_wave, if_neg hc]
  refine ⟨?_, ?_, ?_, ?_, ?_, ?_, ?_, ?_, ?_, ?_, (hw u a2 b2 0 0 0).1, (hw u 0 0 x2 y2 z2).2⟩
  · rw [get_battery_level, hs]; rfl
  · rw [_get_real_strength, hs]; rfl
  · rw [get_strength, _get_real_strength, hs]; rfl
  · rw [_write_real_strength, if_pos ⟨ha, ha2, hb, hb2⟩, hs]; rfl
  · rw [__read_wave, hs]; rfl
  · rw [__write_wave, if_pos ⟨hx, hx2, hy, hy2, hz, hz2⟩, hs]; rfl
  · rw [read_wave_a, __read_wave, hs]; rfl
  · rw [write_wave_a, __write_wave, if_pos ⟨hx, hx2, hy, hy2, hz, hz2⟩, hs]; rfl
  · rw [read_wave_b, __read_wave, hs]; rfl
  · rw [write_wave_b, __write_wave, if_pos ⟨hx, hx2, hy, hy2, hz, hz2⟩, hs]; rfl

theorem c5_not_connected_guard_witness :
    get_battery_level envNoDevice sDown = (.error .NotConnectedError, []) ∧
    _get_real_strength envNoDevice sDown = (.error .NotConnectedError, []) ∧
    get_strength envNoDevice sDown = (.error .NotConnectedError, []) ∧
    _write_real_strength envNoDevice sDown 1 2 = (.error .NotConnectedError, []) ∧
    __read_wave envNoDevice sDown "u" = (.error .NotConnectedError, []) ∧
    __write_wave envNoDevice sDown "u" 3 4 5 = (.error .NotConnectedError, []) ∧
    read_wave_a envNoDevice sDown = (.error .NotConnectedError, []) ∧
    write_wave_a envNoDevice sDown 3 4 5 = (.error .NotConnectedError, []) ∧
    read_wave_b envNoDevice sDown = (.error .NotConnectedError, []) ∧
    write_wave_b envNoDevice sDown 3 4 5 = (.error .NotConnectedError, []) ∧
    (_write_real_strength envNoDevice sDown 2048 (-1)).2 = [] ∧
    (__write_wave envNoDevice sDown "u" 32 (-1) 99).2 = [] :=
  c5_not_connected_guard envNoDevice sDown "u" 1 2 3 4 5 2048 (-1) 32 (-1) 99
    rfl (by decide) (by decide) (by decide) (by decide) (by decide) (by decide)
    (by decide) (by decide) (by decide) (by decide)

/-- C6: the two error transitions of `connect`.  On a live session it
raises `AlreadyConnectedError` leaving the state (still connected) and
the transport untouched; on a dead session whose peer does not expose
the primary service it connects, forcibly disconnects, ends in the
disconnected state, and raises `DeviceIsNotCoyote20Error` (the spec's
`DeviceIsNotExpectedModel`). -/
theorem c6_connect_error_transitions (env1 env2 : Env) (s1 s2 : Coyote2State)
    (a1 a2 : String)
    (h1 : s1.address = some a1) (hc1 : s1.connected = true)
    (h2 : s2.address = some a2) (hc2 : s2.connected = false)
    (hserv : SERVICE_A_UUID.toLower ∉ env2.services) :
    connect env1 s1 = (.error .AlreadyConnectedError, s1, []) ∧
    connect env2 s2 = (.error .DeviceIsNotCoyote20Error,
      { address := s2.address, connected := false }, [.connect, .disconnect]) := by
  constructor
  · rw [connect, h1]
    simp [hc1]
  · rw [connect, h2]
    simp [hc2, hserv]

theorem c6_connect_error_transitions_witness :
    connect envNoDevice sLive = (.error .AlreadyConnectedError, sLive, []) ∧
    connect envNoDevice sDown = (.error .DeviceIsNotCoyote20Error,
      { address := sDown.address, connected := false }, [.connect, .disconnect]) :=
  c6_connect_error_transitions envNoDevice envNoDevice sLive sDown "AA:BB" "AA:BB"
    rfl rfl rfl rfl (by simp [envNoDevice])

/-- C7: when the session scope is entered from a dead state with a known
address, the peer exposes the primary service, and the body raises an
error, the scope still performs the exit disconnect exactly once (the
trace ends with the single `disconnect` contributed by `__aexit__`), the
final state is disconnected, and the body's error propagates. -/
theorem c7_exit_always_disconnects (env : Env) (s s2 : Coyote2State)
    (addr : String) (e : PyErr) (t2 : List TOp)
    (body : Coyote2State → Except PyErr Unit × Coyote2State × List TOp)
    (haddr : s.address = some addr) (hconn : s.connected = false)
    (hserv : SERVICE_A_UUID.toLower ∈ env.services)
    (hbody : body { s with connected := true } = (.error e, s2, t2)) :
    withSession env s body =
      (.error e, { s2 with connected := false }, .connect :: (t2 ++ [.disconnect])) := by
  rw [haddr] at hbody
  rw [withSession, __aenter__, connect, haddr]
  simp only [Option.some_ne_none, if_false, hconn, Bool.false_eq_true, if_pos hserv, hbody]
  rfl

theorem c7_exit_always_disconnects_witness :
    withSession envWithService sDown bodyFail =
      (.error .IndexError, ({ address := some "AA:BB", connected := false } : Coyote2State),
        .connect :: (([] : List TOp) ++ [.disconnect])) :=
  c7_exit_always_disconnects envWithService sDown
    { address := some "AA:BB", connected := true } "AA:BB" .IndexError [] bodyFail
    rfl rfl (by simp [envWithService]) rfl

/-- C8: the float/raw intensity conversions are exactly division by 7
one way and truncation of `v * 7` toward zero (floor, for non-negative
inputs) the other way, with no rounding-to-nearest:
`float_to_raw 1 = 7`, `float_to_raw (1/2) = 3` (the truncation of `3.5`),
and `intensity_to_float 7 = 1`. -/
theorem c8_float_raw_conversions :
    (∀ raw : Nat, intensity_to_float raw = (raw : ℚ) / 7) ∧
    (∀ v : ℚ, 0 ≤ v → float_to_raw v = ⌊v * 7⌋) ∧
    float_to_raw 1 = 7 ∧ float_to_raw (1 / 2) = 3 ∧ intensity_to_float 7 = 1 := by
  have htrunc : ∀ v : ℚ, 0 ≤ v → float_to_raw v = ⌊v * 7⌋ := by
    intro v hv
    rw [float_to_raw, pyInt, if_pos (mul_nonneg hv (by norm_num))]
  refine ⟨fun raw => rfl, htrunc, ?_, ?_, ?_⟩
  · rw [htrunc 1 (by norm_num)]
    norm_num
  · rw [htrunc (1 / 2) (by norm_num)]
    norm_num
  · rw [intensity_to_float]
    norm_num

theorem c8_float_raw_conversions_witness :
    float_to_raw (1 / 3) = ⌊(1 / 3 : ℚ) * 7⌋ :=
  c8_float_raw_conversions.2.1 (1 / 3) (by norm_num)

/-- C9: the public wave channel naming is swapped relative to the
characteristic suffixes: every wave-A read and write targets the
`PWM_B34` characteristic `955A1506-...`, and every wave-B read and write
targets the `PWM_A34` characteristic `955A1505-...`. -/
theorem c9_wave_channel_uuid_swap (env : Env) (s : Coyote2State) (x y z : Int)
    (hs : s.connected = true)
    (hx : 0 ≤ x) (hx2 : x ≤ 31) (hy : 0 ≤ y) (hy2 : y ≤ 1023)
    (hz : 0 ≤ z) (hz2 : z ≤ 31) :
    (read_wave_a env s).2 = [.readChar PWM_B34_UUID] ∧
    (write_wave_a env s x y z).2 =
      [.writeChar PWM_B34_UUID (toBytesLE 3 (wave_pack x.toNat y.toNat z.toNat))] ∧
    (read_wave_b env s).2 = [.readChar PWM_A34_UUID] ∧
    (write_wave_b env s x y z).2 =
      [.writeChar PWM_A34_UUID (toBytesLE 3 (wave_pack x.toNat y.toNat z.toNat))] ∧
    PWM_B34_UUID = "955A1506-0FE2-F5AA-A094-84B8D4F3E8AD" ∧
    PWM_A34_UUID = "955A1505-0FE2-F5AA-A094-84B8D4F3E8AD" := by
  have hxN : x.toNat ≤ 31 := Int.toNat_le.mpr hx2
  have hyN : y.toNat ≤ 1023 := Int.toNat_le.mpr hy2
  have hzN : z.toNat ≤ 31 := Int.toNat_le.mpr hz2
  have hpack : wave_pack x.toNat y.toNat z.toNat
      = ((x.toNat * 1024 + y.toNat) * 32 + z.toNat) * 4 := by
    norm_num [wave_pack, Nat.shiftLeft_eq]
  have hlt : wave_pack x.toNat y.toNat z.toNat < 256 ^ 3 := by
    rw [hpack, show (256 : Nat) ^ 3 = 16777216 by norm_num]
    omega
  have hbytes : to_bytes (wave_pack x.toNat y.toNat z.toNat) 3
      = .ok (toBytesLE 3 (wave_pack x.toNat y.toNat z.toNat)) := by
    rw [to_bytes, if_pos hlt]
  have hwrite : ∀ u : String, (__write_wave env s u x y z).2
      = [.writeChar u (toBytesLE 3 (wave_pack x.toNat y.toNat z.toNat))] := by
    intro u
    rw [__write_wave, if_pos ⟨hx, hx2, hy, hy2, hz, hz2⟩, hs, hbytes]
    rfl
  refine ⟨?_, ?_, ?_, ?_, rfl, rfl⟩
  · rw [read_wave_a, __read_wave, hs]
    rfl
  · rw [write_wave_a, hwrite]
  · rw [read_wave_b, __read_wave, hs]
    rfl
  · rw [write_wave_b, hwrite]

theorem c9_wave_channel_uuid_swap_witness :
    (read_wave_a envNoDevice sLive).2 = [.readChar PWM_B34_UUID] ∧
    (write_wave_a envNoDevice sLive 31 1023 0).2 =
      [.writeChar PWM_B34_UUID
        (toBytesLE 3 (wave_pack (Int.toNat 31) (Int.toNat 1023) (Int.toNat 0)))] ∧
    (read_wave_b envNoDevice sLive).2 = [.readChar PWM_A34_UUID] ∧
    (write_wave_b envNoDevice sLive 31 1023 0).2 =
      [.writeChar PWM_A34_UUID
        (toBytesLE 3 (wave_pack (Int.toNat 31) (Int.toNat 1023) (Int.toNat 0)))] ∧
    PWM_B34_UUID = "955A1506-0FE2-F5AA-A094-84B8D4F3E8AD" ∧
    PWM_A34_UUID = "955A1505-0FE2-F5AA-A094-84B8D4F3E8AD" :=
  c9_wave_channel_uuid_swap envNoDevice sLive 31 1023 0 rfl
    (by decide) (by decide) (by decide) (by decide) (by decide) (by decide)

/-- C10: for any 3-byte payload the decoded fields are automatically in
their declared bit ranges — `a, b ≤ 2047` for the intensity pair and
`x ≤ 31`, `y ≤ 1023`, `z ≤ 31` for the wave triple — because each field
is a shift-and-mask of a value below `2 ^ 24`; both decoders are total,
so decoding never fails on 3-byte inputs. -/
theorem c10_decode_in_range (b0 b1 b2 : Nat)
    (h0 : b0 < 256) (h1 : b1 < 256) (h2 : b2 < 256) :
    (decode_real_strength [b0, b1, b2]).1 ≤ 2047 ∧
    (decode_real_strength [b0, b1, b2]).2 ≤ 2047 ∧
    (decode_wave [b0, b1, b2]).1 ≤ 31 ∧
    (decode_wave [b0, b1, b2]).2.1 ≤ 1023 ∧
    (decode_wave [b0, b1, b2]).2.2 ≤ 31 := by
  have hv : fromBytesLE [b0, b1, b2] = b0 + 256 * (b1 + 256 * (b2 + 256 * 0)) := rfl
  refine ⟨?_, ?_, ?_, ?_, ?_⟩ <;>
    simp only [decode_real_strength, decode_wave, hv, Nat.shiftRight_eq_div_pow,
      and_mask_2047, and_mask_1023, and_mask_31] <;>
    norm_num <;> omega

theorem c10_decode_in_range_witness :
    (decode_real_strength [255, 255, 255]).1 ≤ 2047 ∧
    (decode_real_strength [255, 255, 255]).2 ≤ 2047 ∧
    (decode_wave [255, 255, 255]).1 ≤ 31 ∧
    (decode_wave [255, 255, 255]).2.1 ≤ 1023 ∧
    (decode_wave [255, 255, 255]).2.2 ≤ 31 :=
  c10_decode_in_range 255 255 255 (by decide) (by decide) (by decide)

end Coyote2
